import Mathlib

/-!
Shallow embedding of `src/activity-tracker.js` (class `ActivityTracker`):
the session data model, the session lifecycle (`initializeSession`,
`createNewSession`, `saveSession`), the tracking operations
(`trackPageView`, `trackClick`, `trackFormSubmit`,
`updateScrollPercentage`) and the derived statistics
(`updateSessionDuration`).

Modelling conventions:
* Timestamps are integers (milliseconds).  The JS code stores times as
  ISO-8601 strings via `new Date().toISOString()` and parses them back
  with `new Date(s).getTime()`; since that rendering is injective on
  millisecond instants, the embedding identifies an ISO string with its
  millisecond value.
* Each distinct clock read (`Date.now()` / `new Date()`) in the source
  becomes an explicit integer parameter; functions that read the clock
  more than once (e.g. a tracking call followed by `saveSession`) take
  one parameter per read (`tEvent` for the activity timestamp, `tSave`
  for the `saveSession` write).
* `localStorage.getItem` + `JSON.parse` is fallible code: a stored blob
  is `absent`, `malformed` (a blob on which `JSON.parse` throws), or
  `valid s`.  `initializeSession` accordingly returns `Except`.
* `window.location` page name, and the `Math.random()` suffix of a
  session id, are inputs of the functions that read them.
* JS `Math.round` is `⌊x + 1/2⌋` (round half toward +∞), modelled over
  `ℚ`; JS `Math.floor` of a division by a positive constant is integer
  floor division.
-/

namespace ActivityTracker

/-- The two values of the `type` field of an activity record. -/
inductive ActivityType where
  | pageview
  | interaction
deriving DecidableEq, Repr

/-- The `details.action` field of an interaction record. -/
inductive InteractionAction where
  | click
  | submit
deriving DecidableEq, Repr

/-- One element of `sessionData.activities`.  A pageview record carries
`details.page` and `details.scrollPercentage`; an interaction record
carries `details.action` plus its target (`details.element` for a
click, `details.form` for a submit). -/
inductive Activity where
  | pageview (timestamp : Int) (page : String) (scrollPercentage : Int)
  | interaction (timestamp : Int) (action : InteractionAction) (target : String)
deriving DecidableEq, Repr

/-- The `type` field of a record. -/
def Activity.type : Activity → ActivityType
  | .pageview _ _ _ => ActivityType.pageview
  | .interaction _ _ _ => ActivityType.interaction

/-- Boolean test `activities[i].type === 'pageview'` from the scan in
`updateScrollPercentage`. -/
def Activity.isPageview : Activity → Bool
  | .pageview _ _ _ => true
  | .interaction _ _ _ => false

/-- A record with `type = interaction` and `details.action = click`. -/
def Activity.isClick : Activity → Bool
  | .interaction _ InteractionAction.click _ => true
  | _ => false

/-- A record with `type = interaction` and `details.action = submit`. -/
def Activity.isSubmit : Activity → Bool
  | .interaction _ InteractionAction.submit _ => true
  | _ => false

/-- The `stats` object of the session. -/
structure Stats where
  pagesViewed : Nat
  totalClicks : Nat
  formsSubmitted : Nat
deriving DecidableEq, Repr

/-- `this.sessionData` of the widget. -/
structure Session where
  sessionId : String
  startTime : Int
  lastActivity : Int
  activities : List Activity
  stats : Stats
deriving DecidableEq, Repr

/-- `this.sessionTimeout = 60 * 60 * 1000` (one hour in ms). -/
def sessionTimeout : Int := 60 * 60 * 1000

/-- `` `session_${timestamp}_${random}` `` from `createNewSession`;
`random` stands for the 6-character base-36 suffix drawn from
`Math.random()`. -/
def mkSessionId (timestamp : Int) (random : String) : String :=
  "session_" ++ toString timestamp ++ "_" ++ random

/-- `createNewSession`: fresh id, `startTime = lastActivity = now`,
empty activity list, zeroed stats. -/
def createNewSession (now : Int) (random : String) : Session :=
  { sessionId := mkSessionId now random
    startTime := now
    lastActivity := now
    activities := []
    stats := { pagesViewed := 0, totalClicks := 0, formsSubmitted := 0 } }

/-- `saveSession`: overwrites `lastActivity` with the current time and
writes the blob.  The written blob is `stringifySession` of the result;
the in-memory effect is captured here. -/
def saveSession (s : Session) (nowSave : Int) : Session :=
  { s with lastActivity := nowSave }

/-- `trackPageView`: appends a pageview record with `scrollPercentage`
0 for the current page, increments `stats.pagesViewed`, then saves.
`tEvent` is the clock read for the record's timestamp, `tSave` the one
inside `saveSession`. -/
def trackPageView (s : Session) (page : String) (tEvent tSave : Int) : Session :=
  saveSession
    { s with
        activities := s.activities ++ [Activity.pageview tEvent page 0]
        stats := { s.stats with pagesViewed := s.stats.pagesViewed + 1 } }
    tSave

/-- `trackClick`: appends an interaction record with `action: click`,
increments `stats.totalClicks`, then saves. -/
def trackClick (s : Session) (elementText : String) (tEvent tSave : Int) : Session :=
  saveSession
    { s with
        activities :=
          s.activities ++ [Activity.interaction tEvent InteractionAction.click elementText]
        stats := { s.stats with totalClicks := s.stats.totalClicks + 1 } }
    tSave

/-- `trackFormSubmit`: appends an interaction record with
`action: submit`, increments `stats.formsSubmitted`, then saves. -/
def trackFormSubmit (s : Session) (formId : String) (tEvent tSave : Int) : Session :=
  saveSession
    { s with
        activities :=
          s.activities ++ [Activity.interaction tEvent InteractionAction.submit formId]
        stats := { s.stats with formsSubmitted := s.stats.formsSubmitted + 1 } }
    tSave

/-- JS `Math.round`: round half toward positive infinity. -/
def jsRound (q : ℚ) : Int := ⌊q + 1 / 2⌋

/-- `const percentage = scrollHeight > 0 ? Math.round((scrolled / scrollHeight) * 100) : 0`
where `scrollHeight` is already the scrollable height
(`document.documentElement.scrollHeight - window.innerHeight`) and
`scrolled = window.scrollY`.  No clamping is applied. -/
def computePercentage (scrollHeight scrolled : Int) : Int :=
  if scrollHeight > 0 then jsRound ((scrolled : ℚ) / (scrollHeight : ℚ) * 100) else 0

/-- `activities[i].details.scrollPercentage = percentage` — only ever
executed on a record whose `type` is `pageview`. -/
def setScrollPercentage : Activity → Int → Activity
  | Activity.pageview t pg _, p => Activity.pageview t pg p
  | a, _ => a

/-- The backward scan of `updateScrollPercentage`, expressed on the
reversed list: walk toward older records, update the first one whose
`type` is `pageview`, then break; `none` when the loop falls through
without finding one (in which case nothing is written or saved). -/
def setLastPageViewRev (p : Int) : List Activity → Option (List Activity)
  | [] => none
  | a :: rest =>
    if a.isPageview then some (setScrollPercentage a p :: rest)
    else (setLastPageViewRev p rest).map (fun l => a :: l)

/-- `updateScrollPercentage`: computes the percentage from the scroll
metrics, updates the most recent pageview record if one exists and
saves; a session with no pageview record is left untouched. -/
def updateScrollPercentage (s : Session) (scrollHeight scrolled nowSave : Int) : Session :=
  let percentage := computePercentage scrollHeight scrolled
  match setLastPageViewRev percentage s.activities.reverse with
  | some l => saveSession { s with activities := l.reverse } nowSave
  | none => s

/-- The JS exceptions the embedded code can raise. -/
inductive JsError where
  | syntaxError
deriving DecidableEq, Repr

/-- The blob under `localStorage['activity-tracker-data']`: absent, a
string `JSON.parse` throws on, or a valid serialized session. -/
inductive Stored where
  | absent
  | malformed
  | valid (s : Session)

/-- `initializeSession`: loads the stored blob; if absent, creates a
fresh session; if present, parses it (`JSON.parse` throws on a
malformed blob — there is no try/catch, so the error propagates) and
resumes it when `now - lastActivity < sessionTimeout`, otherwise
creates a fresh session.  Either way it then records a pageview for the
current page and saves.  All clock reads inside one call are `now`. -/
def initializeSession (stored : Stored) (now : Int) (random page : String) :
    Except JsError Session :=
  match stored with
  | Stored.absent =>
      Except.ok (saveSession (trackPageView (createNewSession now random) page now now) now)
  | Stored.malformed => Except.error JsError.syntaxError
  | Stored.valid data =>
      if now - data.lastActivity < sessionTimeout then
        Except.ok
          (saveSession (trackPageView { data with lastActivity := now } page now now) now)
      else
        Except.ok
          (saveSession (trackPageView (createNewSession now random) page now now) now)

/-- `updateSessionDuration`:
`Math.floor((now - startTime) / (1000 * 60))` minutes.  Integer
division `Int.ediv` agrees with real floor division for the positive
constant divisor. -/
def durationMinutes (s : Session) (now : Int) : Int :=
  (now - s.startTime) / (1000 * 60)

/-- `JSON.stringify` of one activity record, with the key insertion
order of the source's object literals. -/
def stringifyActivity : Activity → String
  | Activity.pageview t pg sp =>
      "\x7b\"type\":\"pageview\",\"timestamp\":\"" ++ toString t ++
        "\",\"details\":\x7b\"page\":\"" ++ pg ++ "\",\"scrollPercentage\":" ++
        toString sp ++ "\x7d\x7d"
  | Activity.interaction t InteractionAction.click el =>
      "\x7b\"type\":\"interaction\",\"timestamp\":\"" ++ toString t ++
        "\",\"details\":\x7b\"action\":\"click\",\"element\":\"" ++ el ++ "\"\x7d\x7d"
  | Activity.interaction t InteractionAction.submit f =>
      "\x7b\"type\":\"interaction\",\"timestamp\":\"" ++ toString t ++
        "\",\"details\":\x7b\"action\":\"submit\",\"form\":\"" ++ f ++ "\"\x7d\x7d"

/-- `JSON.stringify(this.sessionData)` — the blob written by
`saveSession` (line 84 of the source). -/
def stringifySession (s : Session) : String :=
  "\x7b\"sessionId\":\"" ++ s.sessionId ++ "\",\"startTime\":\"" ++
    toString s.startTime ++ "\",\"lastActivity\":\"" ++ toString s.lastActivity ++
    "\",\"activities\":[" ++
    String.intercalate "," (s.activities.map stringifyActivity) ++
    "],\"stats\":\x7b\"pagesViewed\":" ++ toString s.stats.pagesViewed ++
    ",\"totalClicks\":" ++ toString s.stats.totalClicks ++
    ",\"formsSubmitted\":" ++ toString s.stats.formsSubmitted ++ "\x7d\x7d"

/-- One user-driven mutation of the live session, with its clock
reads made explicit. -/
inductive Op where
  | pageView (page : String) (tEvent tSave : Int)
  | click (elementText : String) (tEvent tSave : Int)
  | formSubmit (formId : String) (tEvent tSave : Int)
  | scroll (scrollHeight scrolled : Int) (tSave : Int)

/-- The clock read performed by the `saveSession` call of an op. -/
def Op.saveTime : Op → Int
  | .pageView _ _ t => t
  | .click _ _ t => t
  | .formSubmit _ _ t => t
  | .scroll _ _ t => t

/-- Dispatch one op to the corresponding source method. -/
def applyOp (s : Session) : Op → Session
  | Op.pageView pg tE tS => trackPageView s pg tE tS
  | Op.click el tE tS => trackClick s el tE tS
  | Op.formSubmit f tE tS => trackFormSubmit s f tE tS
  | Op.scroll sh sc tS => updateScrollPercentage s sh sc tS

/-- Run a sequence of ops on a session, oldest first. -/
def runOps (s : Session) : List Op → Session
  | [] => s
  | op :: rest => runOps (applyOp s op) rest

/-- `count(activities, type=pageview)`. -/
def countPageviews (l : List Activity) : Nat := l.countP (fun a => a.isPageview)

/-- Count of interaction records with `action = click`. -/
def countClicks (l : List Activity) : Nat := l.countP (fun a => a.isClick)

/-- Count of interaction records with `action = submit`. -/
def countSubmits (l : List Activity) : Nat := l.countP (fun a => a.isSubmit)

/-- The stats/log consistency invariant of the spec. -/
def statsMatchLog (s : Session) : Prop :=
  s.stats.pagesViewed = countPageviews s.activities ∧
  s.stats.totalClicks = countClicks s.activities ∧
  s.stats.formsSubmitted = countSubmits s.activities

instance (s : Session) : Decidable (statsMatchLog s) := by
  unfold statsMatchLog; infer_instance

end ActivityTracker

namespace ActivityTracker

/-- `localStorage.getItem(this.storageKey)` followed by `JSON.parse`
(lines 31 and 35 of the source): absent data yields no session, a
malformed blob makes `JSON.parse` throw. -/
def loadSession : Stored → Except JsError (Option Session)
  | Stored.absent => Except.ok none
  | Stored.malformed => Except.error JsError.syntaxError
  | Stored.valid s => Except.ok (some s)

/-- The activity list of a successful initialization; `[]` when the
call raised. -/
def resultActivities : Except JsError Session → List Activity
  | Except.ok s => s.activities
  | Except.error _ => []

/-- A concrete stored session: freshly created at time 0. -/
def sessA : Session := createNewSession 0 "aaaaaa"

/-- A concrete session holding one pageview record. -/
def sessB : Session :=
  { sessA with
      activities := [Activity.pageview 1 "index.html" 0]
      stats := { pagesViewed := 1, totalClicks := 0, formsSubmitted := 0 } }

end ActivityTracker

namespace ActivityTracker

/-- Claim C3: the spec requires a malformed stored blob to be treated
as absent, with initialization never raising; the code calls
`JSON.parse` with no try/catch, so the parse error propagates out of
`initializeSession` instead of resolving to a fresh session. -/
theorem initialize_malformed_raises :
    initializeSession Stored.malformed 0 "aaaaaa" "index.html" =
      Except.error JsError.syntaxError := rfl

/-- Claim C7: session duration, `floor((now - startTime) / 60000)`
minutes, is monotonically non-decreasing in `now`. -/
theorem duration_monotone (s : Session) (now1 now2 : Int)
    (h0 : s.startTime ≤ now1) (h12 : now1 ≤ now2) :
    durationMinutes s now1 ≤ durationMinutes s now2 := by
  unfold durationMinutes
  omega

/-- Witness for `duration_monotone` at a concrete session and pair of
times. -/
theorem duration_monotone_witness :
    durationMinutes sessA 60000 ≤ durationMinutes sessA 120001 :=
  duration_monotone sessA 60000 120001 (by decide) (by decide)

/-- Claim C9: each tracking operation increments exactly its own
counter, leaves the other two counters, the session id and the start
time unchanged, and only appends to the activity list (so previously
appended records are untouched). -/
theorem tracking_frame_effects (s : Session) (pg el f : String) (tE tS : Int) :
    ((trackPageView s pg tE tS).stats.pagesViewed = s.stats.pagesViewed + 1 ∧
      (trackPageView s pg tE tS).stats.totalClicks = s.stats.totalClicks ∧
      (trackPageView s pg tE tS).stats.formsSubmitted = s.stats.formsSubmitted ∧
      (trackPageView s pg tE tS).sessionId = s.sessionId ∧
      (trackPageView s pg tE tS).startTime = s.startTime ∧
      (trackPageView s pg tE tS).activities =
        s.activities ++ [Activity.pageview tE pg 0]) ∧
    ((trackClick s el tE tS).stats.totalClicks = s.stats.totalClicks + 1 ∧
      (trackClick s el tE tS).stats.pagesViewed = s.stats.pagesViewed ∧
      (trackClick s el tE tS).stats.formsSubmitted = s.stats.formsSubmitted ∧
      (trackClick s el tE tS).sessionId = s.sessionId ∧
      (trackClick s el tE tS).startTime = s.startTime ∧
      (trackClick s el tE tS).activities =
        s.activities ++ [Activity.interaction tE InteractionAction.click el]) ∧
    ((trackFormSubmit s f tE tS).stats.formsSubmitted = s.stats.formsSubmitted + 1 ∧
      (trackFormSubmit s f tE tS).stats.pagesViewed = s.stats.pagesViewed ∧
      (trackFormSubmit s f tE tS).stats.totalClicks = s.stats.totalClicks ∧
      (trackFormSubmit s f tE tS).sessionId = s.sessionId ∧
      (trackFormSubmit s f tE tS).startTime = s.startTime ∧
      (trackFormSubmit s f tE tS).activities =
        s.activities ++ [Activity.interaction tE InteractionAction.submit f]) :=
  ⟨⟨rfl, rfl, rfl, rfl, rfl, rfl⟩, ⟨rfl, rfl, rfl, rfl, rfl, rfl⟩,
    ⟨rfl, rfl, rfl, rfl, rfl, rfl⟩⟩

/-- Claim C6, counterexample: the stored blob is not byte-for-byte
preserved by `save(load())` — `saveSession` overwrites `lastActivity`
with the save-time clock reading before serializing, so saving the
loaded session at time 99 writes a different blob. -/
theorem save_roundtrip_counterexample :
    loadSession (Stored.valid sessA) = Except.ok (some sessA) ∧
    stringifySession (saveSession sessA 99) ≠ stringifySession sessA := by
  constructor
  · rfl
  · decide

/-- Claim C6 (amended): `save(load())` preserves every field except
`lastActivity`, which it overwrites with the save time; the stored
blob is byte-for-byte equivalent exactly when the save-time clock
reading equals the stored `lastActivity`. -/
theorem save_load_frame (s : Session) (now : Int) :
    loadSession (Stored.valid s) = Except.ok (some s) ∧
    (saveSession s now).sessionId = s.sessionId ∧
    (saveSession s now).startTime = s.startTime ∧
    (saveSession s now).activities = s.activities ∧
    (saveSession s now).stats = s.stats ∧
    (saveSession s now).lastActivity = now ∧
    (now = s.lastActivity →
      stringifySession (saveSession s now) = stringifySession s) :=
  ⟨rfl, rfl, rfl, rfl, rfl, rfl, fun h => by rw [saveSession, h]⟩

/-- Witness for `save_load_frame`: saving the loaded session at the
very instant recorded as its `lastActivity` reproduces the blob. -/
theorem save_load_frame_witness :
    stringifySession (saveSession sessA 0) = stringifySession sessA :=
  (save_load_frame sessA 0).2.2.2.2.2.2 rfl

end ActivityTracker

namespace ActivityTracker

/-- Claim C2, counterexample: with a stored session whose
`lastActivity` is a full timeout in the past, `initializeSession`
does not produce empty activities — it always records a pageview for
the current page before returning, so the fresh session holds one
record. -/
theorem initialize_expiry_counterexample :
    (3600000 : Int) - sessA.lastActivity ≥ sessionTimeout ∧
    resultActivities
        (initializeSession (Stored.valid sessA) 3600000 "bcdefg" "about.html") ≠
      ([] : List Activity) := by
  constructor
  · decide
  · decide

/-- Claim C2 (amended): initializing over a stored session whose
inactivity reaches the timeout yields a session with a freshly
generated id whose activities are exactly the one implicit pageview
recorded during initialization; within the timeout the id is
unchanged and the stored activities are preserved with one pageview
appended. -/
theorem initialize_expiry (s : Session) (now : Int) (random page : String) :
    (now - s.lastActivity ≥ sessionTimeout →
      initializeSession (Stored.valid s) now random page =
        Except.ok
          { sessionId := mkSessionId now random
            startTime := now
            lastActivity := now
            activities := [Activity.pageview now page 0]
            stats := { pagesViewed := 1, totalClicks := 0, formsSubmitted := 0 } }) ∧
    (now - s.lastActivity < sessionTimeout →
      initializeSession (Stored.valid s) now random page =
        Except.ok
          { s with
              lastActivity := now
              activities := s.activities ++ [Activity.pageview now page 0]
              stats := { s.stats with pagesViewed := s.stats.pagesViewed + 1 } }) := by
  constructor
  · intro h
    simp only [initializeSession]
    rw [if_neg (not_lt.mpr h)]
    rfl
  · intro h
    simp only [initializeSession]
    rw [if_pos h]
    rfl

/-- Witness for `initialize_expiry`: one expired and one resumed
initialization over the concrete stored session `sessA`. -/
theorem initialize_expiry_witness :
    initializeSession (Stored.valid sessA) 3600000 "bcdefg" "about.html" =
      Except.ok
        { sessionId := mkSessionId 3600000 "bcdefg"
          startTime := 3600000
          lastActivity := 3600000
          activities := [Activity.pageview 3600000 "about.html" 0]
          stats := { pagesViewed := 1, totalClicks := 0, formsSubmitted := 0 } } ∧
    initializeSession (Stored.valid sessA) 1000 "bcdefg" "about.html" =
      Except.ok
        { sessA with
            lastActivity := 1000
            activities := sessA.activities ++ [Activity.pageview 1000 "about.html" 0]
            stats := { sessA.stats with pagesViewed := sessA.stats.pagesViewed + 1 } } :=
  ⟨(initialize_expiry sessA 3600000 "bcdefg" "about.html").1 (by decide),
    (initialize_expiry sessA 1000 "bcdefg" "about.html").2 (by decide)⟩

end ActivityTracker

namespace ActivityTracker

/-- A scan over records none of which is a pageview falls through
without a break. -/
lemma setLastPageViewRev_eq_none (p : Int) (l : List Activity)
    (h : ∀ a ∈ l, a.isPageview = false) : setLastPageViewRev p l = none := by
  induction l with
  | nil => rfl
  | cons a rest ih =>
    simp only [setLastPageViewRev, h a (List.mem_cons_self a rest), Bool.false_eq_true,
      if_false, ih (fun x hx => h x (List.mem_cons_of_mem a hx)), Option.map_none']

/-- The scan skips a pageview-free segment at the newest end of the
list. -/
lemma setLastPageViewRev_append (p : Int) (l rest : List Activity)
    (h : ∀ a ∈ l, a.isPageview = false) :
    setLastPageViewRev p (l ++ rest) =
      (setLastPageViewRev p rest).map (fun t => l ++ t) := by
  induction l with
  | nil => simp
  | cons a l2 ih =>
    have ih2 := ih (fun x hx => h x (List.mem_cons_of_mem a hx))
    simp only [List.cons_append, setLastPageViewRev, h a (List.mem_cons_self a l2),
      Bool.false_eq_true, if_false, List.append_eq]
    rw [ih2]
    cases setLastPageViewRev p rest <;> rfl

/-- The scan fails exactly on pageview-free lists. -/
lemma setLastPageViewRev_eq_none_iff (p : Int) (l : List Activity) :
    setLastPageViewRev p l = none ↔ ∀ a ∈ l, a.isPageview = false := by
  constructor
  · intro h a ha
    induction l with
    | nil => cases ha
    | cons b rest ih =>
      simp only [setLastPageViewRev] at h
      by_cases hb : b.isPageview
      · simp [hb] at h
      · rcases List.mem_cons.mp ha with rfl | hrest
        · exact Bool.eq_false_iff.mpr hb
        · exact ih (by simpa [hb, Option.map_eq_none'] using h) hrest
  · exact setLastPageViewRev_eq_none p l

/-- Full description of `updateScrollPercentage` on a session whose
activity list decomposes as older records, a pageview, and newer
non-pageview records: the pageview gets the computed percentage, all
other records are unchanged, and `saveSession` stamps the save time. -/
lemma updateScrollPercentage_eq (s : Session) (pre suf : List Activity) (p1 : Activity)
    (hp : p1.isPageview = true) (hsuf : ∀ a ∈ suf, a.isPageview = false)
    (hacts : s.activities = pre ++ p1 :: suf) (sh sc tS : Int) :
    updateScrollPercentage s sh sc tS =
      { s with
          activities := pre ++ setScrollPercentage p1 (computePercentage sh sc) :: suf
          lastActivity := tS } := by
  have hrev : s.activities.reverse = suf.reverse ++ p1 :: pre.reverse := by
    simp [hacts]
  have hscan :
      setLastPageViewRev (computePercentage sh sc) (s.activities.reverse) =
        some (suf.reverse ++ setScrollPercentage p1 (computePercentage sh sc) :: pre.reverse) := by
    rw [hrev,
      setLastPageViewRev_append _ _ _ (fun a ha => hsuf a (List.mem_reverse.mp ha)),
      setLastPageViewRev, if_pos hp]
    rfl
  simp only [updateScrollPercentage, hscan, saveSession]
  congr 1
  simp

/-- A session with no pageview record is left completely untouched by
the scroll handler. -/
lemma updateScrollPercentage_noop (s : Session) (sh sc tS : Int)
    (h : ∀ a ∈ s.activities, a.isPageview = false) :
    updateScrollPercentage s sh sc tS = s := by
  simp only [updateScrollPercentage,
    setLastPageViewRev_eq_none _ _ (fun a ha => h a (List.mem_reverse.mp ha))]

end ActivityTracker

namespace ActivityTracker

/-- `Math.round((150 / 100) * 100) = 150` — beyond 100, stored as is. -/
lemma computePercentage_100_150 : computePercentage 100 150 = 150 := by
  norm_num [computePercentage, jsRound]

/-- `Math.round((-5 / 100) * 100) = -5` — negative, stored as is. -/
lemma computePercentage_100_neg5 : computePercentage 100 (-5) = -5 := by
  norm_num [computePercentage, jsRound]

/-- `Math.round((42 / 100) * 100) = 42`. -/
lemma computePercentage_100_42 : computePercentage 100 42 = 42 := by
  norm_num [computePercentage, jsRound]

/-- `type = pageview` and the boolean pageview test agree. -/
lemma isPageview_iff_type (a : Activity) :
    a.isPageview = true ↔ a.type = ActivityType.pageview := by
  cases a <;> simp [Activity.isPageview, Activity.type]

/-- A concrete click interaction record. -/
def actA : Activity := Activity.interaction 2 InteractionAction.click "Buy"

/-- A concrete pageview record. -/
def actP1 : Activity := Activity.pageview 3 "about.html" 0

/-- A concrete submit interaction record. -/
def actB : Activity := Activity.interaction 4 InteractionAction.submit "contact-form"

/-- A session whose log is interaction, pageview, interaction. -/
def sessC : Session :=
  { sessA with
      activities := [actA, actP1, actB]
      stats := { pagesViewed := 1, totalClicks := 1, formsSubmitted := 1 } }

/-- A session whose log holds no pageview record. -/
def sessD : Session :=
  { sessA with
      activities := [actA]
      stats := { pagesViewed := 0, totalClicks := 1, formsSubmitted := 0 } }

/-- Claim C4: with a log ending in interaction `a`, pageview `p1`,
interaction `b`, a scroll update computing 42 rewrites only `p1`'s
scroll percentage, leaving `a`, `b` and all earlier records unchanged;
on a log with no pageview record the operation leaves the session
completely untouched. -/
theorem scroll_update_targets_latest (s s2 : Session) (pre : List Activity)
    (a p1 b : Activity) (sh sc tS sh2 sc2 tS2 : Int)
    (ha : a.type = ActivityType.interaction) (hb : b.type = ActivityType.interaction)
    (hp : p1.type = ActivityType.pageview)
    (hacts : s.activities = pre ++ [a, p1, b])
    (h42 : computePercentage sh sc = 42)
    (hnone : ∀ r ∈ s2.activities, r.type ≠ ActivityType.pageview) :
    (updateScrollPercentage s sh sc tS).activities =
      pre ++ [a, setScrollPercentage p1 42, b] ∧
    updateScrollPercentage s2 sh2 sc2 tS2 = s2 := by
  constructor
  · have hacts2 : s.activities = (pre ++ [a]) ++ p1 :: [b] := by simp [hacts]
    have hb' : ∀ r ∈ [b], r.isPageview = false := by
      intro r hr
      rw [List.mem_singleton.mp hr]
      cases b with
      | pageview t pg sp => cases hb
      | interaction t ac tg => rfl
    rw [updateScrollPercentage_eq s (pre ++ [a]) [b] p1
        ((isPageview_iff_type p1).mpr hp) hb' hacts2 sh sc tS, h42]
    simp
  · refine updateScrollPercentage_noop s2 sh2 sc2 tS2 (fun r hr => ?_)
    have := hnone r hr
    cases r with
    | pageview t pg sp => exact absurd rfl this
    | interaction t ac tg => rfl

/-- Witness for `scroll_update_targets_latest` on the concrete logs
`sessC` (click, pageview, submit) and `sessD` (no pageview). -/
theorem scroll_update_targets_latest_witness :
    (updateScrollPercentage sessC 100 42 9).activities =
      [actA, setScrollPercentage actP1 42, actB] ∧
    updateScrollPercentage sessD 100 42 9 = sessD := by
  have h := scroll_update_targets_latest sessC sessD [] actA actP1 actB
    100 42 9 100 42 9 rfl rfl rfl rfl computePercentage_100_42 (by decide)
  exact ⟨by simpa using h.1, h.2⟩

/-- Claim C5, counterexample: the scroll handler does not clamp — a
scroll state computing 150 percent stores 150 (the spec requires 100),
and one computing -5 stores -5 (the spec requires 0). -/
theorem scroll_clamp_counterexample :
    (updateScrollPercentage sessB 100 150 9).activities ≠
      [Activity.pageview 1 "index.html" 100] ∧
    (updateScrollPercentage sessB 100 150 9).activities =
      [Activity.pageview 1 "index.html" 150] ∧
    (updateScrollPercentage sessB 100 (-5) 9).activities ≠
      [Activity.pageview 1 "index.html" 0] ∧
    (updateScrollPercentage sessB 100 (-5) 9).activities =
      [Activity.pageview 1 "index.html" (-5)] := by
  have h1 := updateScrollPercentage_eq sessB [] [] (Activity.pageview 1 "index.html" 0)
    rfl (by simp) rfl 100 150 9
  have h2 := updateScrollPercentage_eq sessB [] [] (Activity.pageview 1 "index.html" 0)
    rfl (by simp) rfl 100 (-5) 9
  have e1 : (updateScrollPercentage sessB 100 150 9).activities =
      [Activity.pageview 1 "index.html" 150] := by
    rw [h1]
    simp [setScrollPercentage, computePercentage_100_150]
  have e2 : (updateScrollPercentage sessB 100 (-5) 9).activities =
      [Activity.pageview 1 "index.html" (-5)] := by
    rw [h2]
    simp [setScrollPercentage, computePercentage_100_neg5]
  exact ⟨by rw [e1]; decide, e1, by rw [e2]; decide, e2⟩

/-- Claim C5 (amended): the scroll handler stores the raw
`Math.round((scrolled / scrollHeight) * 100)` on the most recent
pageview record with no clamping (0 only when the page is not
scrollable), so a state computing 150 stores 150 and one computing -5
stores -5. -/
theorem scroll_update_unclamped (s : Session) (pre suf : List Activity)
    (t p0 sh sc tS : Int) (pg : String)
    (hacts : s.activities = pre ++ Activity.pageview t pg p0 :: suf)
    (hsuf : ∀ a ∈ suf, a.isPageview = false) :
    (updateScrollPercentage s sh sc tS).activities =
      pre ++ Activity.pageview t pg (computePercentage sh sc) :: suf ∧
    computePercentage 100 150 = 150 ∧ computePercentage 100 (-5) = -5 := by
  refine ⟨?_, computePercentage_100_150, computePercentage_100_neg5⟩
  rw [updateScrollPercentage_eq s pre suf (Activity.pageview t pg p0) rfl hsuf hacts sh sc tS]
  rfl

/-- Witness for `scroll_update_unclamped` on the concrete session
`sessB`. -/
theorem scroll_update_unclamped_witness :
    (updateScrollPercentage sessB 100 150 9).activities =
      [] ++ Activity.pageview 1 "index.html" (computePercentage 100 150) :: [] ∧
    computePercentage 100 150 = 150 ∧ computePercentage 100 (-5) = -5 :=
  scroll_update_unclamped sessB [] [] 1 0 100 150 9 "index.html" rfl (by simp)

/-- Claim C10: `saveSession` stamps `lastActivity` with the save-time
clock reading, so every persisting operation (the three tracking calls
and a scroll update that finds a pageview) persists the moment of the
save, not the event timestamp. -/
theorem save_overwrites_lastActivity (s : Session) (pg el f : String)
    (tE tS sh sc : Int)
    (hpv : ∃ a ∈ s.activities, a.isPageview = true) :
    (saveSession s tS).lastActivity = tS ∧
    (trackPageView s pg tE tS).lastActivity = tS ∧
    (trackClick s el tE tS).lastActivity = tS ∧
    (trackFormSubmit s f tE tS).lastActivity = tS ∧
    (updateScrollPercentage s sh sc tS).lastActivity = tS := by
  refine ⟨rfl, rfl, rfl, rfl, ?_⟩
  obtain ⟨a, ha, hpa⟩ := hpv
  cases hm : setLastPageViewRev (computePercentage sh sc) s.activities.reverse with
  | none =>
      have := (setLastPageViewRev_eq_none_iff _ _).mp hm a (List.mem_reverse.mpr ha)
      rw [hpa] at this
      cases this
  | some l =>
      simp only [updateScrollPercentage, hm]
      rfl

/-- Witness for `save_overwrites_lastActivity`: events recorded at
time 7 are persisted with `lastActivity` 9, the save-time reading. -/
theorem save_overwrites_lastActivity_witness :
    (saveSession sessB 9).lastActivity = 9 ∧
    (trackPageView sessB "about.html" 7 9).lastActivity = 9 ∧
    (trackClick sessB "Buy" 7 9).lastActivity = 9 ∧
    (trackFormSubmit sessB "contact-form" 7 9).lastActivity = 9 ∧
    (updateScrollPercentage sessB 100 50 9).lastActivity = 9 :=
  save_overwrites_lastActivity sessB "about.html" "Buy" "contact-form" 7 9 100 50
    ⟨Activity.pageview 1 "index.html" 0, by decide, rfl⟩

end ActivityTracker

namespace ActivityTracker

/-- Patching a scroll percentage never changes whether a record is a
pageview. -/
lemma isPageview_setScrollPercentage (a : Activity) (p : Int) :
    (setScrollPercentage a p).isPageview = a.isPageview := by
  cases a <;> rfl

/-- Patching a scroll percentage never changes whether a record is a
click. -/
lemma isClick_setScrollPercentage (a : Activity) (p : Int) :
    (setScrollPercentage a p).isClick = a.isClick := by
  cases a <;> rfl

/-- Patching a scroll percentage never changes whether a record is a
submit. -/
lemma isSubmit_setScrollPercentage (a : Activity) (p : Int) :
    (setScrollPercentage a p).isSubmit = a.isSubmit := by
  cases a <;> rfl

/-- A successful scan preserves every count that is blind to the
scroll percentage. -/
lemma countP_setLastPageViewRev (f : Activity → Bool)
    (hf : ∀ a p, f (setScrollPercentage a p) = f a) :
    ∀ (l l' : List Activity) (p : Int),
      setLastPageViewRev p l = some l' → l'.countP f = l.countP f := by
  intro l
  induction l with
  | nil => intro l' p h; cases h
  | cons a rest ih =>
    intro l' p h
    simp only [setLastPageViewRev] at h
    by_cases hb : a.isPageview
    · rw [if_pos hb] at h
      injection h with h
      subst h
      simp [List.countP_cons, hf]
    · rw [if_neg hb] at h
      rcases Option.map_eq_some'.mp h with ⟨t, ht, rfl⟩
      simp [List.countP_cons, ih t p ht]

/-- Counting is invariant under list reversal. -/
lemma countP_reverse_eq (f : Activity → Bool) (l : List Activity) :
    l.reverse.countP f = l.countP f := by
  induction l with
  | nil => rfl
  | cons a rest ih => simp [List.countP_append, List.countP_cons, ih]

/-- Every operation keeps the three counters equal to the counts
recomputed from the log. -/
lemma statsMatchLog_applyOp (s : Session) (op : Op) (h : statsMatchLog s) :
    statsMatchLog (applyOp s op) := by
  obtain ⟨h1, h2, h3⟩ := h
  cases op with
  | pageView pg tE tS =>
    refine ⟨?_, ?_, ?_⟩ <;>
      simp [applyOp, trackPageView, saveSession, countPageviews, countClicks, countSubmits,
        List.countP_append, List.countP_cons, Activity.isPageview, Activity.isClick,
        Activity.isSubmit, h1, h2, h3]
  | click el tE tS =>
    refine ⟨?_, ?_, ?_⟩ <;>
      simp [applyOp, trackClick, saveSession, countPageviews, countClicks, countSubmits,
        List.countP_append, List.countP_cons, Activity.isPageview, Activity.isClick,
        Activity.isSubmit, h1, h2, h3]
  | formSubmit f tE tS =>
    refine ⟨?_, ?_, ?_⟩ <;>
      simp [applyOp, trackFormSubmit, saveSession, countPageviews, countClicks, countSubmits,
        List.countP_append, List.countP_cons, Activity.isPageview, Activity.isClick,
        Activity.isSubmit, h1, h2, h3]
  | scroll sh sc tS =>
    simp only [applyOp]
    cases hm : setLastPageViewRev (computePercentage sh sc) s.activities.reverse with
    | none =>
      simp only [updateScrollPercentage, hm]
      exact ⟨h1, h2, h3⟩
    | some l =>
      simp only [updateScrollPercentage, hm, saveSession]
      have hp := countP_setLastPageViewRev _ isPageview_setScrollPercentage _ _ _ hm
      have hc := countP_setLastPageViewRev _ isClick_setScrollPercentage _ _ _ hm
      have hs := countP_setLastPageViewRev _ isSubmit_setScrollPercentage _ _ _ hm
      refine ⟨?_, ?_, ?_⟩ <;>
        simp only [countPageviews, countClicks, countSubmits, countP_reverse_eq] at h1 h2 h3 ⊢ <;>
        rw [countP_reverse_eq] at hp hc hs
      · rw [hp]; exact h1
      · rw [hc]; exact h2
      · rw [hs]; exact h3

/-- Claim C1: in every session reachable from a fresh one by tracking
and scroll operations, the three counters equal the counts recomputed
from the activity log. -/
theorem stats_match_log_reachable (t0 : Int) (random : String) (ops : List Op) :
    statsMatchLog (runOps (createNewSession t0 random) ops) := by
  suffices key : ∀ (l : List Op) (s : Session), statsMatchLog s → statsMatchLog (runOps s l) from
    key ops (createNewSession t0 random) ⟨rfl, rfl, rfl⟩
  intro l
  induction l with
  | nil => exact fun s hs => hs
  | cons op rest ih => exact fun s hs => ih _ (statsMatchLog_applyOp s op hs)

/-- No operation ever touches `startTime`. -/
lemma applyOp_startTime (s : Session) (op : Op) :
    (applyOp s op).startTime = s.startTime := by
  cases op with
  | pageView pg tE tS => rfl
  | click el tE tS => rfl
  | formSubmit f tE tS => rfl
  | scroll sh sc tS =>
    simp only [applyOp]
    cases hm : setLastPageViewRev (computePercentage sh sc) s.activities.reverse with
    | none => simp [updateScrollPercentage, hm]
    | some l => simp [updateScrollPercentage, hm, saveSession]

/-- After an operation, `lastActivity` is either the operation's
save-time clock reading or untouched (the scroll no-op case). -/
lemma applyOp_lastActivity (s : Session) (op : Op) :
    (applyOp s op).lastActivity = op.saveTime ∨
      (applyOp s op).lastActivity = s.lastActivity := by
  cases op with
  | pageView pg tE tS => exact Or.inl rfl
  | click el tE tS => exact Or.inl rfl
  | formSubmit f tE tS => exact Or.inl rfl
  | scroll sh sc tS =>
    simp only [applyOp]
    cases hm : setLastPageViewRev (computePercentage sh sc) s.activities.reverse with
    | none => exact Or.inr (by simp [updateScrollPercentage, hm])
    | some l => exact Or.inl (by simp [updateScrollPercentage, hm, saveSession, Op.saveTime])

/-- Claim C8: starting from a session created at `t0` (where
`startTime = lastActivity = t0`), any sequence of operations whose
clock readings are at or after `t0` keeps `lastActivity >= startTime`. -/
theorem lastActivity_ge_startTime (t0 : Int) (random : String) (ops : List Op)
    (h : ∀ op ∈ ops, t0 ≤ op.saveTime) :
    (runOps (createNewSession t0 random) ops).startTime ≤
      (runOps (createNewSession t0 random) ops).lastActivity := by
  suffices key : ∀ (l : List Op), (∀ op ∈ l, t0 ≤ op.saveTime) →
      ∀ s : Session, s.startTime = t0 → t0 ≤ s.lastActivity →
      (runOps s l).startTime = t0 ∧ t0 ≤ (runOps s l).lastActivity by
    obtain ⟨h1, h2⟩ := key ops h (createNewSession t0 random) rfl (le_refl t0)
    rw [h1]
    exact h2
  intro l
  induction l with
  | nil => exact fun _ s h1 h2 => ⟨h1, h2⟩
  | cons op rest ih =>
    intro hall s h1 h2
    refine ih (fun o ho => hall o (List.mem_cons_of_mem op ho)) (applyOp s op) ?_ ?_
    · rw [applyOp_startTime, h1]
    · rcases applyOp_lastActivity s op with he | he
      · rw [he]
        exact hall op (List.mem_cons_self op rest)
      · rw [he]
        exact h2

/-- Witness for `lastActivity_ge_startTime`: a fresh session created
at time 0 and three later operations. -/
theorem lastActivity_ge_startTime_witness :
    (runOps (createNewSession 0 "aaaaaa")
        [Op.pageView "index.html" 1 2, Op.click "Buy" 5 6,
          Op.scroll 100 50 7]).startTime ≤
      (runOps (createNewSession 0 "aaaaaa")
        [Op.pageView "index.html" 1 2, Op.click "Buy" 5 6,
          Op.scroll 100 50 7]).lastActivity :=
  lastActivity_ge_startTime 0 "aaaaaa"
    [Op.pageView "index.html" 1 2, Op.click "Buy" 5 6, Op.scroll 100 50 7]
    (by decide)

end ActivityTracker
